import Mathlib

/-!
Shallow embedding of the SOS-complaint lifecycle of the return0-server
repository (models/sosComplaint.js, controllers/sosComplaintController.js,
controllers/authorityController.js).

The document store is a `List Complaint`; Mongoose `Document#save()` is
modelled as the pre-save hook followed by schema validation (enum
membership, `required`, `min`/`max`, `maxlength`), returning
`Except String Complaint`.  The `isModified('urgency')` /
`isModified('category')` flags consulted by the pre-save hook are passed
explicitly to `saveComplaint`; a freshly created document has every path
modified, so `SOSComplaint.create` is a save with both flags `true`.
JavaScript truthiness of optional strings (`x || y`, `` `${x ? ... : ''}` ``)
is modelled by `jsOrStr` / `noteSuffix`, which treat the empty string as
falsy.  Timestamps are epoch milliseconds (`Nat`); `createdAt` keeps the
year and the 0-based month that `getFullYear()` / `getMonth()` expose,
which are the only parts the code reads.
-/

/-- `createdAt` as read by the code: `getFullYear()` and `getMonth()` (0-based). -/
structure DateYM where
  year : Nat
  month0 : Nat
deriving DecidableEq

/-- One entry of the `communications` array (models/sosComplaint.js). -/
structure Communication where
  from_ : String
  message : String
  timestamp : Nat
  officerId : Option String
deriving DecidableEq

/-- The `resolution` sub-document. -/
structure ResolutionRec where
  resolvedBy : Option String
  resolvedAt : Option Nat
  resolutionNotes : Option String
  actionTaken : Option String
deriving DecidableEq

/-- The `feedback` sub-document (`rating` is `null` until feedback is stored). -/
structure FeedbackRec where
  rating : Option Nat
  comment : Option String
  submittedAt : Option Nat
deriving DecidableEq

/-- The `metadata` sub-document: the schema's `submissionSource` path
(enum-validated, default `mobile_app`) plus the ad-hoc escalation keys
merged in by `escalateToFIR`. -/
structure MetadataRec where
  submissionSource : String
  escalatedToFIR : Bool
  firNumber : Option String
  escalatedBy : Option String
  escalationDate : Option Nat
  escalationNotes : Option String
deriving DecidableEq

/-- An `SOSComplaint` document, with the fields the lifecycle code reads or
writes.  `locationCoordinates` is the `[longitude, latitude]` number array
(`none` models `null`/absent). -/
structure Complaint where
  id : String
  userId : String
  category : String
  title : String
  description : String
  urgency : String
  contactInfo : String
  locationAddress : String
  locationCoordinates : Option (List Int)
  status : String
  assignedTo : Option String
  assignedDepartment : Option String
  priority : String
  resolution : ResolutionRec
  communications : List Communication
  feedback : FeedbackRec
  isEmergencySOS : Bool
  sosActivatedAt : Option Nat
  metadata : MetadataRec
  createdAt : DateYM
  updatedAt : Nat
  isDeleted : Bool
  deletedAt : Option Nat
deriving DecidableEq

/-- The `category` enum of the schema. -/
def categoryEnum : List String :=
  ["missing_person", "fire_emergency", "theft_robbery", "accident",
   "medical_help", "general_help", "harassment", "fraud",
   "traffic_violation", "noise_complaint", "other"]

/-- The `urgency` enum of the schema. -/
def urgencyEnum : List String := ["low", "medium", "high", "critical"]

/-- The `status` enum of the schema (models/sosComplaint.js lines 182-190).
Note that `escalated` is not among the listed values. -/
def statusEnum : List String :=
  ["submitted", "under_review", "assigned", "in_progress",
   "resolved", "closed", "rejected"]

/-- The `priority` enum of the schema. -/
def priorityEnum : List String := ["low", "normal", "high", "critical"]

/-- The `assignedDepartment` enum of the schema. -/
def departmentEnum : List String :=
  ["police", "fire_department", "medical_emergency", "traffic_police",
   "tourist_police", "cyber_crime", "general"]

/-- The `metadata.submissionSource` enum of the schema
(models/sosComplaint.js lines 312-315).  Note that `emergency_sos` — the
value written by `submitEmergencyComplaint` — is not among the listed
values. -/
def submissionSourceEnum : List String :=
  ["mobile_app", "web_portal", "phone_call", "walk_in"]

/-- JavaScript `a || b` on an optional string (empty string is falsy). -/
def jsOrStr (a : Option String) (b : String) : String :=
  match a with
  | some s => if s == "" then b else s
  | none => b

/-- JavaScript `a || b` where both operands are optional strings. -/
def jsOrOpt (a b : Option String) : Option String :=
  match a with
  | some s => if s == "" then b else some s
  | none => b

/-- `` `${notes ? `: ${notes}` : ''}` `` — the conditional suffix used in
communication messages. -/
def noteSuffix (notes : Option String) : String :=
  match notes with
  | some n => if n == "" then "" else ": " ++ n
  | none => ""

/-- The priority if-chain of the pre-save hook. -/
def computePriority (urgency : String) (isEmergencySOS : Bool) : String :=
  if urgency == "critical" || isEmergencySOS then "critical"
  else if urgency == "high" then "high"
  else if urgency == "medium" then "normal"
  else "low"

/-- The department switch of the pre-save hook. -/
def computeDepartment (category : String) : String :=
  if category == "fire_emergency" then "fire_department"
  else if category == "medical_help" then "medical_emergency"
  else if category == "accident" || category == "traffic_violation" then "traffic_police"
  else if category == "theft_robbery" || category == "harassment" || category == "fraud" then "police"
  else if category == "missing_person" then "tourist_police"
  else "general"

/-- The pre-save middleware: bump `updatedAt`; recompute `priority` when
`isModified('urgency') || isModified('category')`; recompute
`assignedDepartment` when `isModified('category')`. -/
def presave (c : Complaint) (modUrgency modCategory : Bool) (now : Nat) : Complaint :=
  let c1 := { c with updatedAt := now }
  let c2 := if modUrgency || modCategory then
      { c1 with priority := computePriority c1.urgency c1.isEmergencySOS }
    else c1
  if modCategory then
    { c2 with assignedDepartment := some (computeDepartment c2.category) }
  else c2

/-- Validator for one `communications` entry: `from` enum, `message`
required with maxlength 1000. -/
def validCommunication (m : Communication) : Bool :=
  (m.from_ == "user" || m.from_ == "officer" || m.from_ == "system")
    && (m.message != "") && decide (m.message.length ≤ 1000)

/-- Validator for the `feedback` sub-document: `rating` min 1 / max 5,
`comment` maxlength 500 (null skips validation). -/
def validFeedback (f : FeedbackRec) : Bool :=
  (match f.rating with
   | none => true
   | some r => decide (1 ≤ r) && decide (r ≤ 5))
  && (match f.comment with
      | none => true
      | some s => decide (s.length ≤ 500))

/-- Validator for the `resolution` sub-document (maxlengths 1000/500). -/
def validResolution (r : ResolutionRec) : Bool :=
  (match r.resolutionNotes with
   | none => true
   | some s => decide (s.length ≤ 1000))
  && (match r.actionTaken with
      | none => true
      | some s => decide (s.length ≤ 500))

/-- Schema validation of every path other than `status`. -/
def validRest (c : Complaint) : Bool :=
  (c.userId != "")
    && decide (c.category ∈ categoryEnum)
    && (c.title != "") && decide (c.title.length ≤ 200)
    && (c.description != "") && decide (c.description.length ≤ 2000)
    && decide (c.urgency ∈ urgencyEnum)
    && (c.contactInfo != "")
    && (c.locationAddress != "")
    && decide (c.priority ∈ priorityEnum)
    && (match c.assignedDepartment with
        | none => true
        | some d => decide (d ∈ departmentEnum))
    && decide (c.metadata.submissionSource ∈ submissionSourceEnum)
    && c.communications.all validCommunication
    && validFeedback c.feedback
    && validResolution c.resolution

/-- The message of the first failed validator among the non-`status` paths. -/
def firstError (c : Complaint) : String :=
  if c.userId == "" then "User ID is required"
  else if ¬ c.category ∈ categoryEnum then "category is not a valid enum value"
  else if c.title == "" then "Title is required"
  else if c.title.length > 200 then "Title cannot exceed 200 characters"
  else if c.description == "" then "Description is required"
  else if c.description.length > 2000 then "Description cannot exceed 2000 characters"
  else if ¬ c.urgency ∈ urgencyEnum then "urgency is not a valid enum value"
  else if c.contactInfo == "" then "Contact information is required"
  else if c.locationAddress == "" then "Address is required"
  else if ¬ c.metadata.submissionSource ∈ submissionSourceEnum then
    "submissionSource is not a valid enum value"
  else "Validation failed"

/-- Full Mongoose validation run by `save()`: `status` must be one of the
schema's enum values, and every other path must validate. -/
def validateDoc (c : Complaint) : Option String :=
  if c.status ∈ statusEnum then
    (if validRest c then none else some (firstError c))
  else some (c.status ++ " is not a valid enum value for path status")

/-- `Document#save()`: pre-save hook, then validation; resolves with the
stored document or rejects with a validation error. -/
def saveComplaint (c : Complaint) (modUrgency modCategory : Bool) (now : Nat) :
    Except String Complaint :=
  match validateDoc (presave c modUrgency modCategory now) with
  | none => Except.ok (presave c modUrgency modCategory now)
  | some e => Except.error e

theorem presave_false_false (c : Complaint) (now : Nat) :
    presave c false false now = { c with updatedAt := now } := rfl

theorem presave_true_true (c : Complaint) (now : Nat) :
    presave c true true now =
      { c with updatedAt := now,
               priority := computePriority c.urgency c.isEmergencySOS,
               assignedDepartment := some (computeDepartment c.category) } := rfl

theorem saveComplaint_eq_ok {c : Complaint} {modU modC : Bool} {now : Nat}
    {c2 : Complaint} (h : saveComplaint c modU modC now = Except.ok c2) :
    validateDoc (presave c modU modC now) = none ∧ c2 = presave c modU modC now := by
  unfold saveComplaint at h
  cases hv : validateDoc (presave c modU modC now) with
  | none => rw [hv] at h; exact ⟨rfl, (Except.ok.injEq _ _).mp h.symm⟩
  | some e => rw [hv] at h; exact absurd h (by simp)

theorem validateDoc_eq_none {c : Complaint} :
    validateDoc c = none ↔ (c.status ∈ statusEnum ∧ validRest c = true) := by
  unfold validateDoc
  split
  · split <;> simp_all
  · simp_all

/-- The system entry pushed by `updateStatus`:
`Status changed from {old} to {new}{: notes}`. -/
def statusChangeMsg (oldStatus newStatus : String) (notes : Option String) : String :=
  "Status changed from " ++ oldStatus ++ " to " ++ newStatus ++ noteSuffix notes

/-- The in-memory document mutation performed by
`sosComplaintSchema.methods.updateStatus` before its `save()`. -/
def statusChangedDoc (c : Complaint) (newStatus : String)
    (officerId notes : Option String) (now : Nat) : Complaint :=
  { c with status := newStatus,
           communications := c.communications ++
             [⟨"system", statusChangeMsg c.status newStatus notes, now, officerId⟩] }

/-- `methods.updateStatus(newStatus, officerId, notes)`: set the status,
push the status-change communication, save.  No transition check occurs. -/
def updateStatusMethod (c : Complaint) (newStatus : String)
    (officerId notes : Option String) (now : Nat) : Except String Complaint :=
  saveComplaint (statusChangedDoc c newStatus officerId notes now) false false now

/-- `methods.addCommunication(from, message, officerId)`. -/
def addCommunicationMethod (c : Complaint) (from_ message : String)
    (officerId : Option String) (now : Nat) : Except String Complaint :=
  saveComplaint
    { c with communications := c.communications ++ [⟨from_, message, now, officerId⟩] }
    false false now

/-- The document mutation of `methods.assignOfficer`. -/
def assignedDoc (c : Complaint) (officerId assignedBy : Option String) (now : Nat) :
    Complaint :=
  { c with assignedTo := officerId, status := "assigned",
           communications := c.communications ++
             [⟨"system", "Complaint assigned to officer", now, assignedBy⟩] }

/-- `methods.assignOfficer(officerId, assignedBy)`. -/
def assignOfficerMethod (c : Complaint) (officerId assignedBy : Option String)
    (now : Nat) : Except String Complaint :=
  saveComplaint (assignedDoc c officerId assignedBy now) false false now

/-- The document mutation of `methods.resolve`. -/
def resolvedDoc (c : Complaint) (officerId : Option String)
    (resolutionNotes actionTaken : String) (now : Nat) : Complaint :=
  { c with status := "resolved",
           resolution := ⟨officerId, some now, some resolutionNotes, some actionTaken⟩,
           communications := c.communications ++
             [⟨"system", "Complaint resolved: " ++ resolutionNotes, now, officerId⟩] }

/-- `methods.resolve(officerId, resolutionNotes, actionTaken)`. -/
def resolveMethod (c : Complaint) (officerId : Option String)
    (resolutionNotes actionTaken : String) (now : Nat) : Except String Complaint :=
  saveComplaint (resolvedDoc c officerId resolutionNotes actionTaken now) false false now

/-- `methods.submitFeedback(rating, comment)`. -/
def submitFeedbackMethod (c : Complaint) (rating : Option Nat)
    (comment : Option String) (now : Nat) : Except String Complaint :=
  saveComplaint { c with feedback := ⟨rating, comment, some now⟩ } false false now

/-- JavaScript truthiness of the stored `feedback.rating`
(`if (complaint.feedback.rating)`): null and 0 are falsy. -/
def ratingTruthy (r : Option Nat) : Bool :=
  match r with
  | some n => n != 0
  | none => false

/-- Truthiness test for an optional string (`if (!x)`). -/
def strFalsy (o : Option String) : Bool :=
  match o with
  | none => true
  | some s => s == ""

/-- The `findOne` filter of the user-surface detail/communication endpoints:
`{ _id, userId, isDeleted: false }`. -/
def ownedPred (cid uid : String) : Complaint → Bool :=
  fun c => c.id == cid && c.userId == uid && !c.isDeleted

/-- The `findOne` filter of `submitFeedback`:
`{ _id, userId, status: { $in: ['resolved','closed'] }, isDeleted: false }`. -/
def feedbackPred (cid uid : String) : Complaint → Bool :=
  fun c => c.id == cid && c.userId == uid
    && (c.status == "resolved" || c.status == "closed") && !c.isDeleted

/-- The `findOne` filter of `cancelComplaint`:
`{ _id, userId, status: 'submitted', isDeleted: false }`. -/
def cancelPred (cid uid : String) : Complaint → Bool :=
  fun c => c.id == cid && c.userId == uid && c.status == "submitted" && !c.isDeleted

/-- Replace the saved document in the store (the write-back of `save()`,
keyed by `_id`). -/
def storeWrite (store : List Complaint) (c2 : Complaint) : List Complaint :=
  store.map (fun x => if x.id == c2.id then c2 else x)

/-- Response payload of the user `GET /sos/:complaintId` endpoint. -/
structure DetailsRes where
  httpStatus : Nat
  message : String
  complaint : Option Complaint
  displayedComplaintId : Option String
deriving DecidableEq

/-- Zero-pad to two characters: `String(n).padStart(2, '0')`. -/
def pad2 (n : Nat) : String :=
  let s := toString n
  if s.length < 2 then "0" ++ s else s

/-- `this._id.toString().slice(-6).toUpperCase()`, computed over the
character list (ids are ASCII hex strings). -/
def last6Upper (s : String) : String :=
  String.mk ((s.data.drop (s.data.length - 6)).map Char.toUpper)

/-- The model virtual `complaintId` (models/sosComplaint.js lines 371-376). -/
def complaintIdVirtual (c : Complaint) : String :=
  "SOS" ++ toString c.createdAt.year ++ pad2 (c.createdAt.month0 + 1) ++ last6Upper c.id

/-- The inline recomputation in `getUserComplaints`
(sosComplaintController.js lines 196-199). -/
def complaintIdUserList (c : Complaint) : String :=
  "SOS" ++ toString c.createdAt.year ++ pad2 (c.createdAt.month0 + 1) ++ last6Upper c.id

/-- The inline recomputation in the user `getComplaintDetails`
(sosComplaintController.js lines 237-240). -/
def complaintIdUserDetails (c : Complaint) : String :=
  "SOS" ++ toString c.createdAt.year ++ pad2 (c.createdAt.month0 + 1) ++ last6Upper c.id

/-- The inline recomputation in the authority `getComplaints` list transform
(authorityController.js line 71). -/
def complaintIdAuthorityList (c : Complaint) : String :=
  "SOS" ++ toString c.createdAt.year ++ pad2 (c.createdAt.month0 + 1) ++ last6Upper c.id

/-- The inline recomputation in the authority `getComplaintDetails` transform
(authorityController.js line 258). -/
def complaintIdAuthorityDetails (c : Complaint) : String :=
  "SOS" ++ toString c.createdAt.year ++ pad2 (c.createdAt.month0 + 1) ++ last6Upper c.id

/-- User `GET /sos/:complaintId` (`getComplaintDetails`): look up by id AND
owner, 404 when absent, otherwise return the document with the recomputed
`complaintId`. -/
def getComplaintDetailsU (store : List Complaint) (cid uid : String) :
    DetailsRes × List Complaint :=
  match store.find? (ownedPred cid uid) with
  | none => (⟨404, "Complaint not found", none, none⟩, store)
  | some c =>
      (⟨200, "Complaint details retrieved successfully", some c,
        some (complaintIdUserDetails c)⟩, store)

/-- User `POST /sos/:complaintId/communication` (`addCommunication`). -/
def addCommunicationU (store : List Complaint) (cid uid message : String)
    (now : Nat) : (Nat × String) × List Complaint :=
  match store.find? (ownedPred cid uid) with
  | none => ((404, "Complaint not found"), store)
  | some c =>
      match addCommunicationMethod c "user" message none now with
      | Except.ok c2 => ((200, "Communication added successfully"), storeWrite store c2)
      | Except.error _ => ((500, "Server error while adding communication"), store)

/-- User `POST /sos/:complaintId/feedback` (`submitFeedback`). -/
def submitFeedbackController (store : List Complaint) (cid uid : String)
    (rating : Option Nat) (comment : Option String) (now : Nat) :
    (Nat × String) × List Complaint :=
  match store.find? (feedbackPred cid uid) with
  | none => ((404, "Complaint not found or not eligible for feedback"), store)
  | some c =>
      if ratingTruthy c.feedback.rating then
        ((400, "Feedback has already been submitted for this complaint"), store)
      else
        match submitFeedbackMethod c rating comment now with
        | Except.ok c2 => ((200, "Feedback submitted successfully"), storeWrite store c2)
        | Except.error _ => ((500, "Server error while submitting feedback"), store)

/-- The cancellation note: `Cancelled by user: ${reason || 'No reason provided'}`. -/
def cancelNote (reason : Option String) : String :=
  "Cancelled by user: " ++ jsOrStr reason "No reason provided"

/-- User `PATCH /sos/:complaintId/cancel` (`cancelComplaint`): the filter
requires `status: 'submitted'` and ownership; success goes through
`updateStatus('closed', null, cancellation note)`. -/
def cancelComplaint (store : List Complaint) (cid uid : String)
    (reason : Option String) (now : Nat) : (Nat × String) × List Complaint :=
  match store.find? (cancelPred cid uid) with
  | none => ((404, "Complaint not found or cannot be cancelled"), store)
  | some c =>
      match updateStatusMethod c "closed" none (some (cancelNote reason)) now with
      | Except.ok c2 => ((200, "Complaint cancelled successfully"), storeWrite store c2)
      | Except.error _ => ((500, "Server error while cancelling complaint"), store)

/-- The acknowledgement note passed to `updateStatus` by the authority
`acknowledgeComplaint` handler. -/
def ackNote (officerName notes : Option String) : String :=
  "Acknowledged by " ++ jsOrStr officerName "Authority" ++ noteSuffix notes

/-- Authority `PATCH .../acknowledge` (`acknowledgeComplaint`): `findById`
(no owner filter), then `updateStatus('under_review', null, note)`. -/
def acknowledgeComplaint (store : List Complaint) (cid : String)
    (officerName notes : Option String) (now : Nat) :
    (Nat × String) × List Complaint :=
  match store.find? (fun c => c.id == cid) with
  | none => ((404, "Complaint not found"), store)
  | some c =>
      match updateStatusMethod c "under_review" none
          (some (ackNote officerName notes)) now with
      | Except.ok c2 => ((200, "Complaint acknowledged successfully"), storeWrite store c2)
      | Except.error _ => ((500, "Server error while acknowledging complaint"), store)

/-- Authority `PATCH .../resolve` (`resolveComplaint`): 400 when
`resolutionNotes` is falsy, else `findById` and `resolve(null, notes,
actionTaken || 'Issue resolved by authority')`. -/
def resolveComplaintController (store : List Complaint) (cid : String)
    (_officerName resolutionNotes actionTaken : Option String) (now : Nat) :
    (Nat × String) × List Complaint :=
  if strFalsy resolutionNotes then
    ((400, "Resolution notes are required"), store)
  else
    match store.find? (fun c => c.id == cid) with
    | none => ((404, "Complaint not found"), store)
    | some c =>
        match resolveMethod c none (jsOrStr resolutionNotes "")
            (jsOrStr actionTaken "Issue resolved by authority") now with
        | Except.ok c2 => ((200, "Complaint resolved successfully"), storeWrite store c2)
        | Except.error _ => ((500, "Server error while resolving complaint"), store)

/-- The escalation metadata merged by `escalateToFIR`: the spread
`{...complaint.metadata, ...}` keeps the existing keys (in particular
`submissionSource`) and overrides the escalation ones
(`firNumber: firNumber || `FIR${Date.now()}` `). -/
def escalatedDoc (c : Complaint) (officerName escalationNotes firNumber : Option String)
    (now : Nat) : Complaint :=
  { c with status := "escalated",
           metadata := { c.metadata with
             escalatedToFIR := true,
             firNumber := some (jsOrStr firNumber ("FIR" ++ toString now)),
             escalatedBy := officerName,
             escalationDate := some now,
             escalationNotes := escalationNotes } }

/-- The communication message appended by `escalateToFIR` after its save. -/
def escalateCommMsg (firNumber officerName escalationNotes : Option String) : String :=
  "Complaint escalated to FIR"
    ++ (match firNumber with
        | some f => if f == "" then "" else " (" ++ f ++ ")"
        | none => "")
    ++ " by " ++ jsOrStr officerName "Authority" ++ noteSuffix escalationNotes

/-- Authority `PATCH .../escalate` (`escalateToFIR`): set
`status = 'escalated'`, merge the escalation metadata, `save()`, then append
a system communication (a second save).  A rejected save is caught by the
handler's `try/catch`, which answers 500. -/
def escalateToFIR (store : List Complaint) (cid : String)
    (officerName escalationNotes firNumber : Option String) (now : Nat) :
    (Nat × String) × List Complaint :=
  match store.find? (fun c => c.id == cid) with
  | none => ((404, "Complaint not found"), store)
  | some c =>
      match saveComplaint (escalatedDoc c officerName escalationNotes firNumber now)
          false false now with
      | Except.ok c2 =>
          match addCommunicationMethod c2 "system"
              (escalateCommMsg firNumber officerName escalationNotes) none now with
          | Except.ok c3 =>
              ((200, "Complaint escalated to FIR successfully"), storeWrite store c3)
          | Except.error _ =>
              ((500, "Server error while escalating complaint to FIR"), storeWrite store c2)
      | Except.error _ =>
          ((500, "Server error while escalating complaint to FIR"), store)

/-- The authenticated user record read by `submitEmergencyComplaint`
(`User.findById(userId).select('username email phone')`). -/
structure UserRec where
  id : String
  username : String
  email : Option String
  phone : Option String

/-- The optional request body of `POST /sos/emergency`.
`metaSubmissionSource` models a `submissionSource` key inside
`req.body.metadata`, whose spread `...req.body.metadata` comes after (and
so overrides) the controller's hard-coded `submissionSource:
'emergency_sos'`. -/
structure EmergencyBody where
  description : Option String
  locAddress : Option String
  locCoordinates : Option (List Int)
  locLandmark : Option String
  metaSubmissionSource : Option String

/-- The document built by `submitEmergencyComplaint` before
`SOSComplaint.create`: always `category: 'general_help'`,
`urgency: 'critical'`, `isEmergencySOS: true`,
`contactInfo: user.phone || user.email`, defaulted description/location,
and `metadata.submissionSource: 'emergency_sos'` unless a body
`metadata.submissionSource` overrides it via the spread.  Unset schema
paths take their schema defaults (`status: 'submitted'`,
`priority: 'normal'`, empty sub-documents). -/
def emergencyDoc (user : UserRec) (body : EmergencyBody) (newId : String)
    (createdAt : DateYM) (now : Nat) : Complaint :=
  { id := newId
    userId := user.id
    category := "general_help"
    title := "Emergency SOS Alert"
    description := jsOrStr body.description
      "Emergency SOS activated - immediate assistance required"
    urgency := "critical"
    contactInfo := (jsOrOpt user.phone user.email).getD ""
    locationAddress := jsOrStr body.locAddress "Location detected via GPS"
    locationCoordinates := body.locCoordinates
    status := "submitted"
    assignedTo := none
    assignedDepartment := none
    priority := "normal"
    resolution := ⟨none, none, none, none⟩
    communications := []
    feedback := ⟨none, none, none⟩
    isEmergencySOS := true
    sosActivatedAt := some now
    metadata := ⟨body.metaSubmissionSource.getD "emergency_sos",
                 false, none, none, none, none⟩
    createdAt := createdAt
    updatedAt := now
    isDeleted := false
    deletedAt := none }

/-- `POST /sos/emergency` (`submitEmergencyComplaint`): `create` the
emergency document (a save with every path modified); on success answer 201
with the static ETA string, on a rejected create answer 500.  The second
component is the created document (`none` when creation failed). -/
def submitEmergencyComplaint (user : UserRec) (body : EmergencyBody)
    (newId : String) (createdAt : DateYM) (now : Nat) :
    (Nat × String × Option String) × Option Complaint :=
  match saveComplaint (emergencyDoc user body newId createdAt now) true true now with
  | Except.ok c => ((201, "Emergency SOS activated successfully", some "5-8 minutes"), some c)
  | Except.error _ => ((500, "Server error while activating emergency SOS", none), none)

/-- The `{lat, lng}` object built by the authority view transform.  The
components are optional because JavaScript indexing out of range yields
`undefined`. -/
structure AlertCoordinates where
  lat : Option Int
  lng : Option Int
deriving DecidableEq

/-- The category-to-alert-type object of `mapCategoryToType`
(authorityController.js lines 567-582). -/
def categoryTypeMapping : List (String × String) :=
  [("missing_person", "lost_tourist"), ("fire_emergency", "emergency"),
   ("theft_robbery", "theft"), ("accident", "accident"),
   ("medical_help", "medical_emergency"), ("general_help", "panic_button"),
   ("harassment", "suspicious_activity"), ("fraud", "suspicious_activity"),
   ("traffic_violation", "accident"), ("noise_complaint", "suspicious_activity"),
   ("other", "panic_button")]

/-- `mapCategoryToType`: object lookup with default `'panic_button'`. -/
def mapCategoryToType (category : String) : String :=
  (categoryTypeMapping.lookup category).getD "panic_button"

/-- The urgency-to-severity object of `mapUrgencyToSeverity`. -/
def severityMapping : List (String × String) :=
  [("low", "low"), ("medium", "medium"), ("high", "high"), ("critical", "critical")]

/-- `mapUrgencyToSeverity`: object lookup with default `'medium'`. -/
def mapUrgencyToSeverity (urgency : String) : String :=
  (severityMapping.lookup urgency).getD "medium"

/-- The status-to-alert-status object of `mapComplaintStatusToAlertStatus`
(authorityController.js lines 596-608). -/
def alertStatusMapping : List (String × String) :=
  [("submitted", "active"), ("under_review", "acknowledged"),
   ("assigned", "acknowledged"), ("in_progress", "acknowledged"),
   ("resolved", "resolved"), ("closed", "resolved"), ("rejected", "resolved"),
   ("escalated", "escalated")]

/-- `mapComplaintStatusToAlertStatus`: object lookup with default `'active'`. -/
def mapComplaintStatusToAlertStatus (status : String) : String :=
  (alertStatusMapping.lookup status).getD "active"

/-- The Alert projection built by the authority `getComplaints` transform
(the fields the adapter derives). -/
structure AlertView where
  id : String
  displayedComplaintId : String
  type_ : String
  severity : String
  displayStatus : String
  location : String
  coordinates : Option AlertCoordinates
  isEmergencySOS : Bool
deriving DecidableEq

/-- The per-complaint transform of the authority dashboard list
(authorityController.js lines 69-97): in particular
`coordinates: complaint.location.coordinates ?
{lat: coordinates[1], lng: coordinates[0]} : null`. -/
def transformComplaintToAlert (c : Complaint) : AlertView :=
  { id := c.id
    displayedComplaintId := complaintIdAuthorityList c
    type_ := mapCategoryToType c.category
    severity := mapUrgencyToSeverity c.urgency
    displayStatus := mapComplaintStatusToAlertStatus c.status
    location := c.locationAddress
    coordinates :=
      match c.locationCoordinates with
      | some arr => some ⟨arr.get? 1, arr.get? 0⟩
      | none => none
    isEmergencySOS := c.isEmergencySOS }

/-- The displayStatus table exactly as the specification states it:
submitted→active; under_review|assigned|in_progress→acknowledged;
resolved|closed|rejected→resolved; escalated→escalated; default active. -/
def specDisplayStatus (s : String) : String :=
  if s = "submitted" then "active"
  else if s = "under_review" ∨ s = "assigned" ∨ s = "in_progress" then "acknowledged"
  else if s = "resolved" ∨ s = "closed" ∨ s = "rejected" then "resolved"
  else if s = "escalated" then "escalated"
  else "active"

/-- A concrete complaint used in the closed examples below. -/
def exampleComplaint : Complaint :=
  { id := "0000abc123"
    userId := "u1"
    category := "general_help"
    title := "Help"
    description := "Need help"
    urgency := "low"
    contactInfo := "+1-555-0100"
    locationAddress := "Main Street"
    locationCoordinates := none
    status := "submitted"
    assignedTo := none
    assignedDepartment := some "general"
    priority := "low"
    resolution := ⟨none, none, none, none⟩
    communications := []
    feedback := ⟨none, none, none⟩
    isEmergencySOS := false
    sosActivatedAt := none
    metadata := ⟨"mobile_app", false, none, none, none, none⟩
    createdAt := ⟨2024, 2⟩
    updatedAt := 0
    isDeleted := false
    deletedAt := none }

/-- C4: `complaintId` is a pure function of `createdAt` and `id`, and every
displaying site — the model virtual and the inline recomputations of the
user list, the user detail, the authority list and the authority detail
handlers — computes the identical string; a complaint created 2024-03-15
(year 2024, 0-based month 2) whose id ends in `abc123` yields
`SOS202403ABC123`. -/
theorem complaintId_pure_and_uniform :
    (∀ c : Complaint, complaintIdUserList c = complaintIdVirtual c) ∧
    (∀ c : Complaint, complaintIdUserDetails c = complaintIdVirtual c) ∧
    (∀ c : Complaint, complaintIdAuthorityList c = complaintIdVirtual c) ∧
    (∀ c : Complaint, complaintIdAuthorityDetails c = complaintIdVirtual c) ∧
    (∀ c c2 : Complaint, c.createdAt = c2.createdAt → c.id = c2.id →
      complaintIdVirtual c = complaintIdVirtual c2) ∧
    complaintIdVirtual exampleComplaint = "SOS202403ABC123" := by
  refine ⟨fun c => rfl, fun c => rfl, fun c => rfl, fun c => rfl, ?_, ?_⟩
  · intro c c2 hdate hid
    unfold complaintIdVirtual
    rw [hdate, hid]
  · decide

/-- C9: the authority view adapter swaps the stored `[longitude, latitude]`
order into `{lat: coordinates[1], lng: coordinates[0]}` when coordinates are
present and yields null otherwise, and `mapComplaintStatusToAlertStatus`
equals the stated displayStatus table (submitted→active;
under_review|assigned|in_progress→acknowledged;
resolved|closed|rejected→resolved; escalated→escalated; default active). -/
theorem authority_adapter_coordinates_displayStatus :
    (∀ (c : Complaint) (lon lat : Int), c.locationCoordinates = some [lon, lat] →
      (transformComplaintToAlert c).coordinates = some ⟨some lat, some lon⟩) ∧
    (∀ c : Complaint, c.locationCoordinates = none →
      (transformComplaintToAlert c).coordinates = none) ∧
    (∀ s : String, mapComplaintStatusToAlertStatus s = specDisplayStatus s) := by
  refine ⟨?_, ?_, ?_⟩
  · intro c lon lat h
    simp [transformComplaintToAlert, h]
  · intro c h
    simp [transformComplaintToAlert, h]
  · intro s
    by_cases h1 : s = "submitted"
    · subst h1; decide
    by_cases h2 : s = "under_review"
    · subst h2; decide
    by_cases h3 : s = "assigned"
    · subst h3; decide
    by_cases h4 : s = "in_progress"
    · subst h4; decide
    by_cases h5 : s = "resolved"
    · subst h5; decide
    by_cases h6 : s = "closed"
    · subst h6; decide
    by_cases h7 : s = "rejected"
    · subst h7; decide
    by_cases h8 : s = "escalated"
    · subst h8; decide
    simp [mapComplaintStatusToAlertStatus, alertStatusMapping, List.lookup,
          specDisplayStatus, h1, h2, h3, h4, h5, h6, h7, h8,
          beq_eq_false_iff_ne.mpr h1, beq_eq_false_iff_ne.mpr h2,
          beq_eq_false_iff_ne.mpr h3, beq_eq_false_iff_ne.mpr h4,
          beq_eq_false_iff_ne.mpr h5, beq_eq_false_iff_ne.mpr h6,
          beq_eq_false_iff_ne.mpr h7, beq_eq_false_iff_ne.mpr h8]

/-- A complaint with stored coordinates `[77, 28]` (longitude 77,
latitude 28). -/
def exampleComplaintGeo : Complaint :=
  { exampleComplaint with locationCoordinates := some [77, 28] }

/-- Witness for C9: the adapter maps stored `[77, 28]` to
`{lat: 28, lng: 77}`. -/
theorem authority_adapter_coordinates_displayStatus_witness :
    (transformComplaintToAlert exampleComplaintGeo).coordinates =
      some ⟨some 28, some 77⟩ :=
  authority_adapter_coordinates_displayStatus.1 exampleComplaintGeo 77 28 rfl

theorem validRest_updatedAt (c : Complaint) (n : Nat) :
    validRest { c with updatedAt := n } = validRest c := rfl

theorem saveComplaint_ok_of_valid (c : Complaint) (now : Nat)
    (h1 : c.status ∈ statusEnum) (h2 : validRest c = true) :
    saveComplaint c false false now = Except.ok { c with updatedAt := now } := by
  have hv : validateDoc { c with updatedAt := now } = none :=
    validateDoc_eq_none.mpr ⟨h1, h2⟩
  unfold saveComplaint
  rw [presave_false_false, hv]

theorem validRest_status_comm (c : Complaint) (s : String) (m : Communication)
    (hc : validRest c = true) (hm : validCommunication m = true) :
    validRest { c with status := s, communications := c.communications ++ [m] } = true := by
  simp only [validRest, List.all_append, Bool.and_eq_true] at hc ⊢
  simp_all [List.all]

theorem validRest_append_comm (c : Complaint) (m : Communication)
    (hc : validRest c = true) (hm : validCommunication m = true) :
    validRest { c with communications := c.communications ++ [m] } = true := by
  simp only [validRest, List.all_append, Bool.and_eq_true] at hc ⊢
  simp_all [List.all]

theorem validRest_assignedDoc (c : Complaint) (officerId assignedBy : Option String)
    (now : Nat) (hc : validRest c = true) :
    validRest (assignedDoc c officerId assignedBy now) = true := by
  simp only [assignedDoc, validRest, List.all_append, Bool.and_eq_true] at hc ⊢
  simp_all [List.all, validCommunication]
  decide

theorem validRest_resolvedDoc (c : Complaint) (officerId : Option String)
    (notes actionTaken : String) (now : Nat) (hc : validRest c = true)
    (hn : notes.length ≤ 1000) (ha : actionTaken.length ≤ 500)
    (hm : validCommunication ⟨"system", "Complaint resolved: " ++ notes, now, officerId⟩ = true) :
    validRest (resolvedDoc c officerId notes actionTaken now) = true := by
  simp only [resolvedDoc, validRest, validResolution, List.all_append,
    Bool.and_eq_true] at hc ⊢
  simp_all [List.all]

theorem validRest_feedbackDoc (c : Complaint) (rating : Option Nat)
    (comment : Option String) (now : Nat) (hc : validRest c = true)
    (hf : validFeedback ⟨rating, comment, some now⟩ = true) :
    validRest { c with feedback := ⟨rating, comment, some now⟩ } = true := by
  simp only [validRest, Bool.and_eq_true] at hc ⊢
  simp_all

theorem updateStatusMethod_ok (c : Complaint) (newStatus : String)
    (oid notes : Option String) (now : Nat)
    (hc : validRest c = true) (hs : newStatus ∈ statusEnum)
    (hm : validCommunication
      ⟨"system", statusChangeMsg c.status newStatus notes, now, oid⟩ = true) :
    updateStatusMethod c newStatus oid notes now =
      Except.ok { statusChangedDoc c newStatus oid notes now with updatedAt := now } := by
  unfold updateStatusMethod
  exact saveComplaint_ok_of_valid _ now hs (validRest_status_comm c newStatus _ hc hm)

/-- C1 (amended): the save layer only accepts statuses from the schema's
7-value enum (which omits `escalated`), but no lifecycle operation validates
transitions against the §4.1 graph: `updateStatus` writes ANY enum status
from ANY current status — the outcome does not depend on the old status
beyond the text of the appended communication, so out-of-graph transitions
succeed silently instead of failing with an `InvalidTransition` error. -/
theorem updateStatus_skips_graph_validation :
    (∀ (c : Complaint) (modU modC : Bool) (now : Nat) (c2 : Complaint),
      saveComplaint c modU modC now = Except.ok c2 → c2.status ∈ statusEnum) ∧
    (∀ (c : Complaint) (newStatus : String) (oid notes : Option String) (now : Nat),
      validRest c = true → newStatus ∈ statusEnum →
      validCommunication
        ⟨"system", statusChangeMsg c.status newStatus notes, now, oid⟩ = true →
      updateStatusMethod c newStatus oid notes now =
        Except.ok { statusChangedDoc c newStatus oid notes now with updatedAt := now } ∧
      ({ statusChangedDoc c newStatus oid notes now with updatedAt := now }).status
        = newStatus) := by
  constructor
  · intro c modU modC now c2 h
    obtain ⟨hv, hc2⟩ := saveComplaint_eq_ok h
    rw [hc2]
    exact (validateDoc_eq_none.mp hv).1
  · intro c newStatus oid notes now hc hs hm
    exact ⟨updateStatusMethod_ok c newStatus oid notes now hc hs hm, rfl⟩

/-- A complaint already in the terminal status `closed`. -/
def closedComplaint : Complaint := { exampleComplaint with status := "closed" }

/-- Witness for C1 (amended): `updateStatus` moves a complaint from the
terminal status `closed` straight back to `submitted` without an error. -/
theorem updateStatus_skips_graph_validation_witness :
    updateStatusMethod closedComplaint "submitted" none none 0 =
      Except.ok { statusChangedDoc closedComplaint "submitted" none none 0 with
                  updatedAt := 0 } ∧
    ({ statusChangedDoc closedComplaint "submitted" none none 0 with
       updatedAt := 0 }).status = "submitted" :=
  updateStatus_skips_graph_validation.2 closedComplaint "submitted" none none 0
    (by decide) (by decide) (by decide)

/-- A one-complaint store whose complaint is `closed` (a terminal state). -/
def storeClosed : List Complaint := [closedComplaint]

/-- Counterexample to C1 as stated: `closed` is terminal, so the claim says
acknowledging this complaint (a `closed → under_review` transition, outside
the §4.1 graph) must fail with `InvalidTransition` and leave the complaint
unchanged; instead the handler answers 200 and the stored status becomes
`under_review`. -/
theorem acknowledge_closed_complaint_succeeds :
    (acknowledgeComplaint storeClosed "0000abc123" none none 0).1 =
      (200, "Complaint acknowledged successfully") ∧
    ((acknowledgeComplaint storeClosed "0000abc123" none none 0).2.map
      Complaint.status) = ["under_review"] := by
  decide

/-- The complaint's derived fields agree with the pre-save policy tables for
its current `urgency`, `category` and `isEmergencySOS`. -/
def policyConsistentB (c : Complaint) : Bool :=
  (c.priority == computePriority c.urgency c.isEmergencySOS)
    && (c.assignedDepartment == some (computeDepartment c.category))

/-- C2 (amended): creation (a save with every path modified) establishes
`priority`/`assignedDepartment` per the §4.1 policy tables — with
`isEmergencySOS` as an input of the priority rule — and every lifecycle
mutation (updateStatus, addCommunication, assignOfficer, resolve,
submitFeedback), none of which touches `urgency`, `category` or
`isEmergencySOS`, preserves that consistency; so after any completed
operation the derived fields match the tables.  (The recomputation trigger
is `isModified('urgency') || isModified('category')` only — see the
counterexample for a save whose sole modified path is `isEmergencySOS`.) -/
theorem policy_tables_and_consistency :
    (∀ (c : Complaint) (now : Nat) (c2 : Complaint),
      saveComplaint c true true now = Except.ok c2 → policyConsistentB c2 = true) ∧
    (∀ (c : Complaint) (newStatus : String) (oid notes : Option String) (now : Nat)
      (c2 : Complaint), policyConsistentB c = true →
      updateStatusMethod c newStatus oid notes now = Except.ok c2 →
      policyConsistentB c2 = true) ∧
    (∀ (c : Complaint) (from_ message : String) (oid : Option String) (now : Nat)
      (c2 : Complaint), policyConsistentB c = true →
      addCommunicationMethod c from_ message oid now = Except.ok c2 →
      policyConsistentB c2 = true) ∧
    (∀ (c : Complaint) (oid assignedBy : Option String) (now : Nat)
      (c2 : Complaint), policyConsistentB c = true →
      assignOfficerMethod c oid assignedBy now = Except.ok c2 →
      policyConsistentB c2 = true) ∧
    (∀ (c : Complaint) (oid : Option String) (notes actionTaken : String) (now : Nat)
      (c2 : Complaint), policyConsistentB c = true →
      resolveMethod c oid notes actionTaken now = Except.ok c2 →
      policyConsistentB c2 = true) ∧
    (∀ (c : Complaint) (rating : Option Nat) (comment : Option String) (now : Nat)
      (c2 : Complaint), policyConsistentB c = true →
      submitFeedbackMethod c rating comment now = Except.ok c2 →
      policyConsistentB c2 = true) := by
  refine ⟨?_, ?_, ?_, ?_, ?_, ?_⟩
  · intro c now c2 h
    obtain ⟨_, hc2⟩ := saveComplaint_eq_ok h
    rw [hc2, presave_true_true]
    simp [policyConsistentB]
  · intro c newStatus oid notes now c2 hcons h
    obtain ⟨_, hc2⟩ := saveComplaint_eq_ok h
    rw [hc2, presave_false_false]
    exact hcons
  · intro c from_ message oid now c2 hcons h
    obtain ⟨_, hc2⟩ := saveComplaint_eq_ok h
    rw [hc2, presave_false_false]
    exact hcons
  · intro c oid assignedBy now c2 hcons h
    obtain ⟨_, hc2⟩ := saveComplaint_eq_ok h
    rw [hc2, presave_false_false]
    exact hcons
  · intro c oid notes actionTaken now c2 hcons h
    obtain ⟨_, hc2⟩ := saveComplaint_eq_ok h
    rw [hc2, presave_false_false]
    exact hcons
  · intro c rating comment now c2 hcons h
    obtain ⟨_, hc2⟩ := saveComplaint_eq_ok h
    rw [hc2, presave_false_false]
    exact hcons

/-- Witness for C2 (amended): a concrete status update keeps the derived
fields consistent with the policy tables. -/
theorem policy_tables_and_consistency_witness :
    policyConsistentB { statusChangedDoc exampleComplaint "under_review" none none 0 with
                        updatedAt := 0 } = true :=
  policy_tables_and_consistency.2.1 exampleComplaint "under_review" none none 0
    { statusChangedDoc exampleComplaint "under_review" none none 0 with updatedAt := 0 }
    (by decide) rfl

/-- `exampleComplaint` (urgency low, priority low) after setting ONLY
`isEmergencySOS := true` on the loaded document. -/
def sosFlaggedComplaint : Complaint := { exampleComplaint with isEmergencySOS := true }

/-- Counterexample to C2 as stated: the claim says recomputation happens
whenever `isEmergencySOS` changes, but the pre-save guard is
`isModified('urgency') || isModified('category')`, so a save whose only
modified path is `isEmergencySOS` (both flags false) completes while
`priority` stays `low` even though the §4.1 table yields `critical` for
`urgency=low, isEmergencySOS=true`. -/
theorem presave_ignores_isEmergencySOS_modification :
    ((saveComplaint sosFlaggedComplaint false false 5).toOption.map
      Complaint.priority) = some "low" ∧
    computePriority sosFlaggedComplaint.urgency sosFlaggedComplaint.isEmergencySOS
      = "critical" ∧
    ((saveComplaint sosFlaggedComplaint false false 5).toOption.map
      policyConsistentB) = some false := by
  decide

/-- A one-complaint store with a valid `submitted` complaint. -/
def storeSubmitted : List Complaint := [exampleComplaint]

/-- C3: `escalateToFIR` writes `status = 'escalated'`, but `escalated` is
not among the schema's status enum values (models/sosComplaint.js lines
182-190), so the `save()` is rejected by enum validation, the handler's
`catch` answers 500, and nothing — no status, no FIR metadata, no
communication — is persisted.  The code contradicts itself: its own
`mapComplaintStatusToAlertStatus` maps `escalated`, yet the model cannot
store it. -/
theorem escalate_fails_enum_validation :
    escalateToFIR storeSubmitted "0000abc123" none none none 0 =
      ((500, "Server error while escalating complaint to FIR"), storeSubmitted) ∧
    ¬ "escalated" ∈ statusEnum ∧
    "escalated" ∈ alertStatusMapping.map Prod.fst := by
  decide

/-- C8: `resolveComplaint` answers 400 before touching the store when
`resolutionNotes` is absent or empty — no status change, no resolution
record, no communication; with notes present (and schema-valid lengths) it
stores `status = 'resolved'`, fills the resolution sub-record
(`resolvedBy` is passed as null) and appends exactly one system
communication `Complaint resolved: {notes}`. -/
theorem resolve_requires_notes :
    (∀ (store : List Complaint) (cid : String)
      (officerName resolutionNotes actionTaken : Option String) (now : Nat),
      strFalsy resolutionNotes = true →
      resolveComplaintController store cid officerName resolutionNotes actionTaken now =
        ((400, "Resolution notes are required"), store)) ∧
    (∀ (store : List Complaint) (cid : String) (officerName actionTaken : Option String)
      (n : String) (now : Nat) (c : Complaint),
      store.find? (fun x => x.id == cid) = some c →
      n ≠ "" → validRest c = true →
      n.length ≤ 1000 →
      (jsOrStr actionTaken "Issue resolved by authority").length ≤ 500 →
      validCommunication ⟨"system", "Complaint resolved: " ++ n, now, none⟩ = true →
      resolveComplaintController store cid officerName (some n) actionTaken now =
        ((200, "Complaint resolved successfully"),
          storeWrite store
            { resolvedDoc c none n (jsOrStr actionTaken "Issue resolved by authority") now
              with updatedAt := now }) ∧
      (resolvedDoc c none n (jsOrStr actionTaken "Issue resolved by authority") now).status
          = "resolved" ∧
      (resolvedDoc c none n (jsOrStr actionTaken "Issue resolved by authority") now).resolution
          = ⟨none, some now, some n,
             some (jsOrStr actionTaken "Issue resolved by authority")⟩ ∧
      (resolvedDoc c none n (jsOrStr actionTaken "Issue resolved by authority") now).communications
          = c.communications ++ [⟨"system", "Complaint resolved: " ++ n, now, none⟩]) := by
  constructor
  · intro store cid officerName resolutionNotes actionTaken now h
    simp [resolveComplaintController, h]
  · intro store cid officerName actionTaken n now c hfind hn hrest hlen1 hlen2 hm
    have hsf : strFalsy (some n) = false := by
      simp [strFalsy]
      exact hn
    have hjs : jsOrStr (some n) "" = n := by
      simp [jsOrStr, beq_eq_false_iff_ne.mpr hn]
    have hvrest : validRest
        (resolvedDoc c none n (jsOrStr actionTaken "Issue resolved by authority") now)
        = true :=
      validRest_resolvedDoc c none n _ now hrest hlen1 hlen2 hm
    have hstat : (resolvedDoc c none n
        (jsOrStr actionTaken "Issue resolved by authority") now).status ∈ statusEnum := by
      show "resolved" ∈ statusEnum
      decide
    have hsave : resolveMethod c none n
        (jsOrStr actionTaken "Issue resolved by authority") now =
        Except.ok { resolvedDoc c none n
          (jsOrStr actionTaken "Issue resolved by authority") now with updatedAt := now } :=
      saveComplaint_ok_of_valid _ now hstat hvrest
    refine ⟨?_, rfl, rfl, rfl⟩
    simp only [resolveComplaintController, hsf, Bool.false_eq_true, if_false, hfind,
               hjs, hsave]

/-- Witness for C8: resolving the example complaint with notes `Fixed`
succeeds and stores the resolved document. -/
theorem resolve_requires_notes_witness :
    resolveComplaintController storeSubmitted "0000abc123" none (some "Fixed") none 7 =
      ((200, "Complaint resolved successfully"),
        storeWrite storeSubmitted
          { resolvedDoc exampleComplaint none "Fixed"
              (jsOrStr none "Issue resolved by authority") 7 with updatedAt := 7 }) :=
  (resolve_requires_notes.2 storeSubmitted "0000abc123" none none "Fixed" 7
    exampleComplaint (by decide) (by decide) (by decide) (by decide) (by decide)
    (by decide)).1

/-- C6 (amended): `cancelComplaint` succeeds exactly when the store holds a
non-deleted complaint with the given id whose owner is the caller and whose
status is `submitted` (the `findOne` filter), and then closes it through
`updateStatus('closed', null, 'Cancelled by user: …')`; every other (status,
caller) combination takes the filter-miss branch, which answers 404
`Complaint not found or cannot be cancelled` (an HTTP 404 not-found
rejection, not 409/403) and leaves the store unchanged. -/
theorem cancel_iff_submitted_owner :
    (∀ (store : List Complaint) (cid uid : String) (reason : Option String) (now : Nat),
      store.find? (cancelPred cid uid) = none →
      cancelComplaint store cid uid reason now =
        ((404, "Complaint not found or cannot be cancelled"), store)) ∧
    (∀ (store : List Complaint) (cid uid : String) (reason : Option String) (now : Nat)
      (c : Complaint),
      store.find? (cancelPred cid uid) = some c →
      validRest c = true →
      validCommunication
        ⟨"system", statusChangeMsg c.status "closed" (some (cancelNote reason)),
         now, none⟩ = true →
      cancelComplaint store cid uid reason now =
        ((200, "Complaint cancelled successfully"),
          storeWrite store
            { statusChangedDoc c "closed" none (some (cancelNote reason)) now with
              updatedAt := now }) ∧
      ({ statusChangedDoc c "closed" none (some (cancelNote reason)) now with
         updatedAt := now }).status = "closed" ∧
      c.status = "submitted" ∧ c.userId = uid ∧ c.isDeleted = false) := by
  constructor
  · intro store cid uid reason now h
    simp [cancelComplaint, h]
  · intro store cid uid reason now c hfind hrest hm
    have hpred : cancelPred cid uid c = true := List.find?_some hfind
    simp only [cancelPred, Bool.and_eq_true, beq_iff_eq,
               Bool.not_eq_true'] at hpred
    obtain ⟨⟨⟨hid, huid⟩, hstatus⟩, hdel⟩ := hpred
    have hsave := updateStatusMethod_ok c "closed" none (some (cancelNote reason)) now
      hrest (by decide) hm
    refine ⟨?_, rfl, hstatus, huid, hdel⟩
    simp only [cancelComplaint, hfind, hsave]

/-- Witness for C6 (amended): the owner cancels the example `submitted`
complaint; it is stored as `closed`. -/
theorem cancel_iff_submitted_owner_witness :
    cancelComplaint storeSubmitted "0000abc123" "u1" none 3 =
      ((200, "Complaint cancelled successfully"),
        storeWrite storeSubmitted
          { statusChangedDoc exampleComplaint "closed" none (some (cancelNote none)) 3
            with updatedAt := 3 }) :=
  (cancel_iff_submitted_owner.2 storeSubmitted "0000abc123" "u1" none 3
    exampleComplaint (by decide) (by decide) (by decide)).1

/-- A one-complaint store whose complaint is already `resolved`. -/
def storeResolved : List Complaint := [{ exampleComplaint with status := "resolved" }]

/-- Counterexample to C6 as stated: the owner tries to cancel their own
`resolved` complaint.  The claim (with the spec's §7 taxonomy: Conflict=409,
Forbidden=403) says this fails with a Conflict or Forbidden error; the code
answers the 404 not-found response instead (and leaves the store
unchanged). -/
theorem cancel_nonsubmitted_owner_gets_404 :
    cancelComplaint storeResolved "0000abc123" "u1" none 0 =
      ((404, "Complaint not found or cannot be cancelled"), storeResolved) ∧
    (404 : Nat) ≠ 409 ∧ (404 : Nat) ≠ 403 := by
  decide

/-- C5 (amended): `submitFeedback` succeeds only when the `findOne` filter
matches — owner, `status ∈ {resolved, closed}`, not deleted — and the stored
`feedback.rating` is not yet truthy; when a truthy rating is already stored,
every later attempt (with any rating) answers HTTP 400 `Feedback has already
been submitted for this complaint` and leaves the store unchanged.  A
successful submission stores the given rating, and any provided rating
(minimum 1) is truthy, so a success that carried a rating blocks all later
attempts; but the guard is JavaScript truthiness of the stored rating, so a
successful submission WITHOUT a rating does not block later attempts (see
the counterexample). -/
theorem submitFeedback_once_amended :
    (∀ (store : List Complaint) (cid uid : String) (rating : Option Nat)
      (comment : Option String) (now : Nat),
      store.find? (feedbackPred cid uid) = none →
      submitFeedbackController store cid uid rating comment now =
        ((404, "Complaint not found or not eligible for feedback"), store)) ∧
    (∀ (store : List Complaint) (cid uid : String) (rating : Option Nat)
      (comment : Option String) (now : Nat) (c : Complaint),
      store.find? (feedbackPred cid uid) = some c →
      ratingTruthy c.feedback.rating = true →
      submitFeedbackController store cid uid rating comment now =
        ((400, "Feedback has already been submitted for this complaint"), store)) ∧
    (∀ (store : List Complaint) (cid uid : String) (rating : Option Nat)
      (comment : Option String) (now : Nat) (c : Complaint),
      store.find? (feedbackPred cid uid) = some c →
      c.feedback.rating = none →
      validRest c = true →
      validFeedback ⟨rating, comment, some now⟩ = true →
      submitFeedbackController store cid uid rating comment now =
        ((200, "Feedback submitted successfully"),
          storeWrite store
            { { c with feedback := ⟨rating, comment, some now⟩ } with
              updatedAt := now }) ∧
      ({ { c with feedback := ⟨rating, comment, some now⟩ } with
         updatedAt := now }).feedback = ⟨rating, comment, some now⟩ ∧
      (c.status = "resolved" ∨ c.status = "closed") ∧ c.userId = uid) ∧
    (∀ r : Nat, 1 ≤ r → ratingTruthy (some r) = true) := by
  refine ⟨?_, ?_, ?_, ?_⟩
  · intro store cid uid rating comment now h
    simp [submitFeedbackController, h]
  · intro store cid uid rating comment now c hfind hguard
    simp [submitFeedbackController, hfind, hguard]
  · intro store cid uid rating comment now c hfind hnone hrest hf
    have hpred : feedbackPred cid uid c = true := List.find?_some hfind
    simp only [feedbackPred, Bool.and_eq_true, Bool.or_eq_true, beq_iff_eq,
               Bool.not_eq_true'] at hpred
    obtain ⟨⟨⟨hid, huid⟩, hstatus⟩, hdel⟩ := hpred
    have hstat : ({ c with feedback :=
        (⟨rating, comment, some now⟩ : FeedbackRec) }).status ∈ statusEnum := by
      show c.status ∈ statusEnum
      rcases hstatus with h | h <;> rw [h] <;> decide
    have hsave : submitFeedbackMethod c rating comment now =
        Except.ok { { c with feedback := ⟨rating, comment, some now⟩ } with
                    updatedAt := now } :=
      saveComplaint_ok_of_valid _ now hstat
        (validRest_feedbackDoc c rating comment now hrest hf)
    refine ⟨?_, rfl, hstatus, huid⟩
    simp only [submitFeedbackController, hfind, hnone, ratingTruthy,
               Bool.false_eq_true, if_false, hsave]
  · intro r hr
    cases r with
    | zero => omega
    | succ k => simp [ratingTruthy]

/-- Witness for C5 (amended): submitting rating 4 on the resolved example
complaint succeeds and stores the rating. -/
theorem submitFeedback_once_amended_witness :
    submitFeedbackController storeResolved "0000abc123" "u1" (some 4) none 2 =
      ((200, "Feedback submitted successfully"),
        storeWrite storeResolved
          { { { exampleComplaint with status := "resolved" } with
              feedback := ⟨some 4, none, some 2⟩ } with updatedAt := 2 }) :=
  (submitFeedback_once_amended.2.2.1 storeResolved "0000abc123" "u1" (some 4) none 2
    { exampleComplaint with status := "resolved" }
    (by decide) (by decide) (by decide) (by decide)).1

/-- Counterexample to C5 as stated: on a resolved complaint the owner's
first feedback submission WITHOUT a rating succeeds (200), and a second
submission with rating 5 succeeds again (200) — `submitFeedback` does not
succeed exactly once, and the later attempt does not fail with a Conflict
error, because the duplicate guard tests only JavaScript truthiness of the
stored rating. -/
theorem submitFeedback_twice_succeeds_without_rating :
    ((submitFeedbackController storeResolved "0000abc123" "u1" none none 0).1).1
        = 200 ∧
    ((submitFeedbackController
        (submitFeedbackController storeResolved "0000abc123" "u1" none none 0).2
        "0000abc123" "u1" (some 5) none 1).1).1 = 200 := by
  decide

/-- The user of the spec example: phone `+1-555-0100`, no email needed. -/
def emergencyUser : UserRec := ⟨"u9", "alice", none, some "+1-555-0100"⟩

/-- An empty `POST /sos/emergency` body (no metadata override). -/
def emptyBody : EmergencyBody := ⟨none, none, none, none, none⟩

/-- A body whose `metadata.submissionSource` overrides the hard-coded
`emergency_sos` with a schema-valid value through the spread. -/
def overrideBody : EmergencyBody := ⟨none, none, none, none, some "mobile_app"⟩

/-- C7: the claim describes the intended behaviour — 201 with the static
ETA `5-8 minutes` and a complaint with `category=general_help`,
`urgency=critical`, `isEmergencySOS=true`, `contactInfo` defaulted from the
user's phone (else email) — and the controller does construct exactly that
document; but it also writes `metadata.submissionSource = 'emergency_sos'`
(sosComplaintController.js line 105), a value the schema's
`submissionSource` enum (models/sosComplaint.js lines 312-315) rejects, so
for the claim's own example input (phone `+1-555-0100`, empty body) the
`create` is rejected by enum validation and the handler answers 500 with no
complaint and no ETA string.  Only a request whose body
`metadata.submissionSource` overrides the value with a schema-valid one
(via the spread) reaches the claimed 201/ETA path. -/
theorem submitEmergency_enum_bug :
    (emergencyDoc emergencyUser emptyBody "e1" ⟨2025, 0⟩ 10).category
        = "general_help" ∧
    (emergencyDoc emergencyUser emptyBody "e1" ⟨2025, 0⟩ 10).urgency = "critical" ∧
    (emergencyDoc emergencyUser emptyBody "e1" ⟨2025, 0⟩ 10).isEmergencySOS = true ∧
    (emergencyDoc emergencyUser emptyBody "e1" ⟨2025, 0⟩ 10).contactInfo
        = "+1-555-0100" ∧
    ¬ "emergency_sos" ∈ submissionSourceEnum ∧
    validateDoc (presave (emergencyDoc emergencyUser emptyBody "e1" ⟨2025, 0⟩ 10)
        true true 10) = some "submissionSource is not a valid enum value" ∧
    submitEmergencyComplaint emergencyUser emptyBody "e1" ⟨2025, 0⟩ 10 =
      ((500, "Server error while activating emergency SOS", none), none) ∧
    submitEmergencyComplaint emergencyUser overrideBody "e1" ⟨2025, 0⟩ 10 =
      ((201, "Emergency SOS activated successfully", some "5-8 minutes"),
        some (presave (emergencyDoc emergencyUser overrideBody "e1" ⟨2025, 0⟩ 10)
          true true 10)) := by
  decide


theorem findFirst_filter {α : Type} (p q : α → Bool)
    (h : ∀ a, p a = true → q a = true) :
    ∀ l : List α, (l.filter q).find? p = l.find? p := by
  intro l
  induction l with
  | nil => rfl
  | cons a t ih =>
    cases hq : q a with
    | false =>
      have hp : p a = false := by
        cases hpa : p a
        · rfl
        · exact absurd (h a hpa) (by simp [hq])
      simp [List.filter, List.find?, hq, hp, ih]
    | true =>
      cases hpa : p a
      · simp [List.filter, List.find?, hq, hpa, ih]
      · simp [List.filter, List.find?, hq, hpa]

theorem ownedPred_owner (cid uid : String) (c : Complaint)
    (h : ownedPred cid uid c = true) : (c.userId == uid) = true := by
  simp only [ownedPred, Bool.and_eq_true] at h
  exact h.1.2

theorem feedbackPred_owner (cid uid : String) (c : Complaint)
    (h : feedbackPred cid uid c = true) : (c.userId == uid) = true := by
  simp only [feedbackPred, Bool.and_eq_true] at h
  exact h.1.1.2

theorem cancelPred_owner (cid uid : String) (c : Complaint)
    (h : cancelPred cid uid c = true) : (c.userId == uid) = true := by
  simp only [cancelPred, Bool.and_eq_true] at h
  exact h.1.1.2

/-- C10: every user-surface operation targeting one complaint (detail read,
communication, feedback, cancel) filters by BOTH the complaint id and the
caller's userId.  First part: when no complaint of the store pairs the
requested id with the caller as owner, each endpoint answers its not-found
response and the store is untouched — another user's complaint can be
neither read nor mutated.  Second part (noninterference): the responses seen
by caller `uid` depend only on the sublist of complaints owned by `uid`; two
stores agreeing there produce identical responses. -/
theorem user_surface_ownership_isolation :
    (∀ (store : List Complaint) (cid uid message : String) (rating : Option Nat)
      (comment reason : Option String) (now : Nat),
      (∀ c ∈ store, ¬(c.id = cid ∧ c.userId = uid)) →
      getComplaintDetailsU store cid uid =
        (⟨404, "Complaint not found", none, none⟩, store) ∧
      addCommunicationU store cid uid message now =
        ((404, "Complaint not found"), store) ∧
      submitFeedbackController store cid uid rating comment now =
        ((404, "Complaint not found or not eligible for feedback"), store) ∧
      cancelComplaint store cid uid reason now =
        ((404, "Complaint not found or cannot be cancelled"), store)) ∧
    (∀ (s1 s2 : List Complaint) (cid uid message : String) (rating : Option Nat)
      (comment reason : Option String) (now : Nat),
      s1.filter (fun c => c.userId == uid) = s2.filter (fun c => c.userId == uid) →
      (getComplaintDetailsU s1 cid uid).1 = (getComplaintDetailsU s2 cid uid).1 ∧
      (addCommunicationU s1 cid uid message now).1 =
        (addCommunicationU s2 cid uid message now).1 ∧
      (submitFeedbackController s1 cid uid rating comment now).1 =
        (submitFeedbackController s2 cid uid rating comment now).1 ∧
      (cancelComplaint s1 cid uid reason now).1 =
        (cancelComplaint s2 cid uid reason now).1) := by
  constructor
  · intro store cid uid message rating comment reason now H
    have h1 : store.find? (ownedPred cid uid) = none := by
      rw [List.find?_eq_none]
      intro c hc hp
      simp only [ownedPred, Bool.and_eq_true, beq_iff_eq] at hp
      exact H c hc ⟨hp.1.1, hp.1.2⟩
    have h2 : store.find? (feedbackPred cid uid) = none := by
      rw [List.find?_eq_none]
      intro c hc hp
      simp only [feedbackPred, Bool.and_eq_true, beq_iff_eq] at hp
      exact H c hc ⟨hp.1.1.1, hp.1.1.2⟩
    have h3 : store.find? (cancelPred cid uid) = none := by
      rw [List.find?_eq_none]
      intro c hc hp
      simp only [cancelPred, Bool.and_eq_true, beq_iff_eq] at hp
      exact H c hc ⟨hp.1.1.1, hp.1.1.2⟩
    exact ⟨by simp [getComplaintDetailsU, h1], by simp [addCommunicationU, h1],
           by simp [submitFeedbackController, h2], by simp [cancelComplaint, h3]⟩
  · intro s1 s2 cid uid message rating comment reason now hagree
    have key : ∀ p : Complaint → Bool,
        (∀ c, p c = true → (c.userId == uid) = true) →
        s1.find? p = s2.find? p := by
      intro p himp
      calc s1.find? p = (s1.filter (fun c => c.userId == uid)).find? p :=
            (findFirst_filter p _ himp s1).symm
        _ = (s2.filter (fun c => c.userId == uid)).find? p := by rw [hagree]
        _ = s2.find? p := findFirst_filter p _ himp s2
    have e1 := key (ownedPred cid uid) (ownedPred_owner cid uid)
    have e2 := key (feedbackPred cid uid) (feedbackPred_owner cid uid)
    have e3 := key (cancelPred cid uid) (cancelPred_owner cid uid)
    refine ⟨?_, ?_, ?_, ?_⟩
    · unfold getComplaintDetailsU
      rw [e1]
      cases s2.find? (ownedPred cid uid) <;> rfl
    · unfold addCommunicationU
      rw [e1]
      cases hc : s2.find? (ownedPred cid uid) with
      | none => rfl
      | some c =>
        dsimp only
        cases addCommunicationMethod c "user" message none now <;> rfl
    · unfold submitFeedbackController
      rw [e2]
      cases hc : s2.find? (feedbackPred cid uid) with
      | none => rfl
      | some c =>
        dsimp only
        by_cases hr : ratingTruthy c.feedback.rating = true
        · simp only [hr, if_true]
        · simp only [hr, if_false]
          cases submitFeedbackMethod c rating comment now <;> rfl
    · unfold cancelComplaint
      rw [e3]
      cases hc : s2.find? (cancelPred cid uid) with
      | none => rfl
      | some c =>
        dsimp only
        cases updateStatusMethod c "closed" none (some (cancelNote reason)) now <;> rfl

/-- Witness for C10: a different user (`u2`) asking for `u1`'s complaint by
its id gets the 404 and an unchanged store. -/
theorem user_surface_ownership_isolation_witness :
    getComplaintDetailsU storeSubmitted "0000abc123" "u2" =
      (⟨404, "Complaint not found", none, none⟩, storeSubmitted) :=
  (user_surface_ownership_isolation.1 storeSubmitted "0000abc123" "u2" "hello"
    none none none 0 (by decide)).1

/-- Witness for C4: two complaints with the same `createdAt` and id (they
differ in coordinates) display the same `complaintId`. -/
theorem complaintId_pure_and_uniform_witness :
    complaintIdVirtual exampleComplaint = complaintIdVirtual exampleComplaintGeo :=
  complaintId_pure_and_uniform.2.2.2.2.1 exampleComplaint exampleComplaintGeo rfl rfl
